import Mathlib

/-!
Verification development for the Qr-Generator-Bot repository.

Shallow embedding conventions:
- Python `str` is modelled as Lean `String` (a structure over `List Char`).
- Python `float` timestamps and amounts are modelled as `ℚ`; `int(x)`
  (truncation toward zero) is `pyInt`.
- Python dicts keyed by ids are modelled as total functions into `Option`.
- Fallible external calls (platform delete, database upsert, analytics
  insert) are modelled by explicit Boolean success parameters; a `False`
  parameter stands for the call raising, which the source catches.
- `re.match` full-string character-class checks are modelled as checks on
  the character list; the model ignores the CPython quirk that `$` also
  matches just before a final newline, which no claim exercises.
-/

namespace QRBot

/-! ### Python primitives -/

/-- Python `int(q)`: truncation toward zero. -/
def pyInt (q : ℚ) : ℤ := if 0 ≤ q then ⌊q⌋ else ⌈q⌉

/-- First component below is the text before the first `sep`; the second is
`some` of the text after it when `sep` occurs.  Models Python
`s.split(sep, 1)` (which returns one or two parts). -/
def splitFirst (sep : Char) : List Char → List Char × Option (List Char)
  | [] => ([], none)
  | c :: rest =>
    if c == sep then ([], some rest)
    else
      let p := splitFirst sep rest
      (c :: p.1, p.2)

/-- Models `s.startswith(c)` for a one-character test string. -/
def headIs (c : Char) : List Char → Bool
  | [] => false
  | a :: _ => a == c

/-- Models `s.endswith(c)` for a one-character test string. -/
def lastIs (c : Char) (l : List Char) : Bool := headIs c l.reverse

/-- Models `'..' in s`: two consecutive dots somewhere in the text. -/
def hasDoubleDot : List Char → Bool
  | a :: b :: rest => (a == '.' && b == '.') || hasDoubleDot (b :: rest)
  | _ => false

/-! ### src/config/constants.py -/

/-- `Constants.MAX_UPI_LENGTH` from src/config/constants.py. -/
def MAX_UPI_LENGTH : Nat := 100

/-- `Constants.VALID_PROVIDERS` from src/config/constants.py. -/
def VALID_PROVIDERS : List String :=
  ["okhdfcbank", "okaxis", "oksbi", "okicici", "paytm", "ybl",
   "ibl", "axl", "barodampay", "kaypay", "cnrb", "idfcbank",
   "waicici", "waaxis", "wahdfcbank", "wasbi", "myicici",
   "rbl", "hdfcbank", "axisbank", "icici", "sbi", "yesbank",
   "upi", "myhdfc", "mysbi", "myaxis", "mykotak", "apl"]

/-! ### src/utils/validators.py: UPIValidator -/

/-- A character of the class `[a-zA-Z0-9._-]`
(`UPIValidator._validate_username`, line 63). -/
def allowedUsernameChar (c : Char) : Bool :=
  (decide ('a' ≤ c) && decide (c ≤ 'z')) ||
  (decide ('A' ≤ c) && decide (c ≤ 'Z')) ||
  (decide ('0' ≤ c) && decide (c ≤ '9')) ||
  c == '.' || c == '_' || c == '-'

/-- A character of the class `[a-z]`. -/
def isLowerAlpha (c : Char) : Bool := decide ('a' ≤ c) && decide (c ≤ 'z')

/-- Full match of `[a-z]{3,}bank` on a character list: ends with `bank`,
what comes before it is at least three lowercase letters. -/
def bankCore (l : List Char) : Bool :=
  decide (7 ≤ l.length) &&
  (l.take (l.length - 4)).all isLowerAlpha &&
  (l.drop (l.length - 4) == "bank".data)

/-- Full match of the bank-style pattern of `UPIValidator.PROVIDER_PATTERNS`,
regex `(ok|wa|my)?[a-z]{3,}bank` anchored at both ends: the optional
two-letter prefix is either absent or stripped before the core match. -/
def matchBanks (s : String) : Bool :=
  bankCore s.data ||
  ((s.data.take 2 == "ok".data || s.data.take 2 == "wa".data ||
    s.data.take 2 == "my".data) && bankCore (s.data.drop 2))

/-- Full match of the wallet-style pattern `(paytm|ybl|ibl|axl|apl)`. -/
def matchWallets (s : String) : Bool :=
  ["paytm", "ybl", "ibl", "axl", "apl"].contains s

/-- Full match of the pattern `upi`. -/
def matchUpiLiteral (s : String) : Bool := s == "upi"

/-- Result shape of `UPIValidator._validate_provider`. -/
structure ProviderResult where
  valid : Bool
  error : String
  warning : Option String
deriving DecidableEq

/-- `UPIValidator._validate_provider` from src/utils/validators.py
(lines 68-90).  The `warning` field is `some` exactly on the
unknown-provider branch. -/
def validate_provider (provider : String) : ProviderResult :=
  if provider.data.isEmpty then
    ⟨false, "Provider cannot be empty", none⟩
  else if provider.data.length < 2 then
    ⟨false, "Provider name too short", none⟩
  else if VALID_PROVIDERS.contains provider then
    ⟨true, "", none⟩
  else if matchBanks provider || matchWallets provider || matchUpiLiteral provider then
    ⟨true, "", none⟩
  else
    ⟨true, "", some ("Unknown provider \x27" ++ provider ++ "\x27. Please verify it\x27s correct.")⟩

/-- `UPIValidator._validate_username` from src/utils/validators.py
(lines 45-66): `none` when the username passes, `some message` on the first
failing rule. -/
def validate_username (username : String) : Option String :=
  if username.data.isEmpty then
    some "Username cannot be empty"
  else if username.data.length < 3 then
    some "Username must be at least 3 characters"
  else if MAX_UPI_LENGTH < username.data.length then
    some ("Username too long (max " ++ toString MAX_UPI_LENGTH ++ " characters)")
  else if headIs '.' username.data || lastIs '.' username.data then
    some "Username cannot start or end with dot"
  else if hasDoubleDot username.data then
    some "Username cannot contain consecutive dots"
  else if !(username.data.all allowedUsernameChar) then
    some "Username can only contain letters, numbers, dots, underscores, hyphens"
  else
    none

/-- Result shape of `UPIValidator.validate`. -/
structure ValidationResult where
  valid : Bool
  error : String
  warnings : List String
deriving DecidableEq

/-- `UPIValidator.validate` from src/utils/validators.py (lines 13-43).
`split('@', 1)` is `splitFirst`; the source's dead `len(parts) != 2` branch
is the `none` arm of the split result. -/
def validate (upi_id : String) : ValidationResult :=
  if upi_id.data.isEmpty || !(upi_id.data.contains '@') then
    ⟨false, "UPI ID must contain \x27@\x27 symbol", []⟩
  else
    match splitFirst '@' upi_id.data with
    | (_, none) => ⟨false, "Invalid UPI format", []⟩
    | (userPart, some provPart) =>
      match validate_username (String.mk userPart) with
      | some err => ⟨false, err, []⟩
      | none =>
        let pr := validate_provider (String.mk provPart).toLower
        if !pr.valid then ⟨false, pr.error, []⟩
        else
          match pr.warning with
          | some w => ⟨true, "", [w]⟩
          | none => ⟨true, "", []⟩

/-! ### src/utils/validators.py: RateLimiter

The source file uses `datetime.now()` / `timedelta` for timestamps but never
imports `datetime` or `timedelta`, so at runtime both methods raise
`NameError` — see the `..._run` definitions in the runtime-name-resolution
section below, which gate these bodies behind that lookup.  The two
definitions here are the statement-level semantics of the bodies with the
missing import repaired (the behavior the docstrings document), with the
current time passed explicitly as a rational number of seconds.  The
`requests` dict is a total function defaulting to `[]`, which also models
the `if key not in self.requests: self.requests[key] = []` idiom. -/

/-- State of a `RateLimiter` instance (src/utils/validators.py, lines 92-98). -/
structure RateLimiter where
  max_requests : Nat
  window : ℤ
  requests : String → List ℚ

/-- Body of `RateLimiter.add_request` (src/utils/validators.py,
lines 123-127) with the missing `datetime` import repaired: appends the
current timestamp to the key's list.  The runtime form is
`add_request_run`. -/
def add_request (rl : RateLimiter) (key : String) (now : ℚ) : RateLimiter :=
  { rl with
    requests := fun k => if k = key then rl.requests key ++ [now] else rl.requests k }

/-- Body of `RateLimiter.is_rate_limited` (src/utils/validators.py,
lines 100-121) with the missing `datetime` import repaired: prunes entries
older than the window, stores the pruned list back, then compares the count
to the max; when limited, `retry_after` is `window - int(now - oldest)`.
The `[]` arm of the match mirrors that `min([])` cannot be reached once
`max_requests` is positive.  The runtime form is `is_rate_limited_run`. -/
def is_rate_limited (rl : RateLimiter) (key : String) (now : ℚ) :
    (Bool × ℤ) × RateLimiter :=
  let pruned := (rl.requests key).filter (fun t => decide (now - t < (rl.window : ℚ)))
  let rl' : RateLimiter :=
    { rl with requests := fun k => if k = key then pruned else rl.requests k }
  if rl.max_requests ≤ pruned.length then
    match pruned with
    | [] => ((true, 0), rl')
    | h :: tl =>
      let oldest := tl.foldl min h
      ((true, rl.window - pyInt (now - oldest)), rl')
  else
    ((false, 0), rl')

/-! ### src/utils/qr_generator.py: UltimateQRGenerator._build_upi_url -/

/-- Round to the nearest integer, ties to even: the rounding used when a
nonnegative amount is formatted with two decimals. -/
def roundHalfEven (x : ℚ) : ℤ :=
  let f := ⌊x⌋
  if x - f < 1 / 2 then f
  else if 1 / 2 < x - f then f + 1
  else if f % 2 = 0 then f else f + 1

/-- Two decimal digits of a number below 100. -/
def twoDigitStr (n : Nat) : String :=
  String.mk [Nat.digitChar (n / 10), Nat.digitChar (n % 10)]

/-- Python `f"{amount:.2f}"` for the nonnegative amounts the builder guards
for, with the float amount modelled as a rational. -/
def fmtTwoDec (q : ℚ) : String :=
  let cents := roundHalfEven (100 * q)
  toString (cents / 100) ++ "." ++ twoDigitStr (cents % 100).toNat

/-- UTF-8 bytes of a code point, as numbers below 256. -/
def utf8Bytes (n : Nat) : List Nat :=
  if n < 128 then [n]
  else if n < 2048 then [192 + n / 64, 128 + n % 64]
  else if n < 65536 then [224 + n / 4096, 128 + n / 64 % 64, 128 + n % 64]
  else [240 + n / 262144, 128 + n / 4096 % 64, 128 + n / 64 % 64, 128 + n % 64]

/-- Uppercase hex digit, as `urllib.parse.quote` prints escaped bytes. -/
def upperHexChar (n : Nat) : Char :=
  if n < 10 then Nat.digitChar n else Char.ofNat (55 + n)

/-- A byte rendered as a percent escape. -/
def percentByte (b : Nat) : List Char :=
  ['%', upperHexChar (b / 16), upperHexChar (b % 16)]

/-- The characters `urllib.parse.quote` leaves unescaped with its default
`safe` argument: ASCII letters, digits, `_.-~` and `/`. -/
def quoteSafeChar (c : Char) : Bool :=
  (decide ('A' ≤ c) && decide (c ≤ 'Z')) ||
  (decide ('a' ≤ c) && decide (c ≤ 'z')) ||
  (decide ('0' ≤ c) && decide (c ≤ '9')) ||
  c == '_' || c == '.' || c == '-' || c == '~' || c == '/'

/-- `urllib.parse.quote(s)` with the default `safe`: each character is kept
when safe, otherwise each of its UTF-8 bytes is percent-escaped. -/
def pyQuote (s : String) : String :=
  String.mk ((s.data.map (fun c =>
    if quoteSafeChar c then [c]
    else ((utf8Bytes c.toNat).map percentByte).flatten)).flatten)

/-- Python `s.strip()`: drop whitespace from both ends. -/
def pyStrip (s : String) : String :=
  String.mk
    (((s.data.dropWhile Char.isWhitespace).reverse.dropWhile
      Char.isWhitespace).reverse)

/-- Python `s[:n]` on a string: the first `n` characters. -/
def pyTake (s : String) (n : Nat) : String := String.mk (s.data.take n)

/-- The `params` dict of `UltimateQRGenerator._build_upi_url`
(src/utils/qr_generator.py, lines 96-106) in insertion order: `pa`, `pn`,
`cu` first; `am` added when `amount and amount > 0` (float truthiness is
`amount != 0`); `tn` added when the note is a non-empty string, stripped and
cut to 100 characters. -/
def build_upi_params (upi_id name : String) (amount : Option ℚ)
    (note : Option String) : List (String × String) :=
  let base := [("pa", upi_id), ("pn", pyStrip name), ("cu", "INR")]
  let withAm := base ++
    (match amount with
     | some a => if a ≠ 0 ∧ 0 < a then [("am", fmtTwoDec a)] else []
     | none => [])
  withAm ++
    (match note with
     | some s => if s ≠ "" then [("tn", pyTake (pyStrip s) 100)] else []
     | none => [])

/-- `UltimateQRGenerator._build_upi_url` (src/utils/qr_generator.py,
lines 88-111): `"upi://pay?"` followed by the `&`-joined `k=quote(v)`
pairs. -/
def build_upi_url (upi_id name : String) (amount : Option ℚ)
    (note : Option String) : String :=
  "upi://pay?" ++
    String.intercalate "&"
      ((build_upi_params upi_id name amount note).map
        (fun kv => kv.1 ++ "=" ++ pyQuote kv.2))

/-! ### src/utils/encryption.py and src/utils/upi_manager.py

The Fernet cipher is an external library; it is modelled as an abstract
encrypt function together with a decrypt that may fail (`Option`), which is
all `encrypt_dict` / `decrypt_dict` use of it. -/

/-- The symmetric cipher held by `EncryptionManager`. -/
structure Cipher where
  enc : String → String
  dec : String → Option String

/-- The per-value treatment of `EncryptionManager.encrypt_dict`
(src/utils/encryption.py, lines 32-40): only non-empty strings are
encrypted. -/
def encField (c : Cipher) (s : String) : String :=
  if s.data.isEmpty then s else c.enc s

/-- The per-value treatment of `EncryptionManager.decrypt_dict`
(src/utils/encryption.py, lines 42-53): only non-empty strings are
decrypted, and a failing decrypt falls back to the raw value. -/
def decField (c : Cipher) (s : String) : String :=
  if s.data.isEmpty then s else (c.dec s).getD s

/-- A `users` collection document as `UltimateUPIManager.save_upi` builds it
(src/utils/upi_manager.py, lines 47-55). -/
structure UPIDoc where
  user_id : String
  upi_id : String
  name : String
  note : Option String
  last_updated : ℚ
  created_at : ℚ
  usage_count : Nat
deriving DecidableEq

/-- `EncryptionManager.encrypt_dict` over the three sensitive keys of a
document: `upi_id`, `name`, `note`.  A `None` note is not a string and is
kept as is. -/
def encrypt_dict (c : Cipher) (d : UPIDoc) : UPIDoc :=
  { d with
    upi_id := encField c d.upi_id
    name := encField c d.name
    note := d.note.map (encField c) }

/-- `EncryptionManager.decrypt_dict` over the three sensitive keys of a
document. -/
def decrypt_dict (c : Cipher) (d : UPIDoc) : UPIDoc :=
  { d with
    upi_id := decField c d.upi_id
    name := decField c d.name
    note := d.note.map (decField c) }

/-- The database `users` collection and the in-memory cache of
`UltimateUPIManager`, both keyed by `user_id`. -/
structure StoreState where
  db : String → Option UPIDoc
  cache : String → Option UPIDoc

/-- Return shape of `UltimateUPIManager.save_upi`. -/
structure SaveResult where
  success : Bool
  document_id : Option String
  warnings : List String
deriving DecidableEq

/-- `UltimateUPIManager.get_upi` (src/utils/upi_manager.py, lines 106-135):
cache hit returns the (optionally decrypted) cached document; cache miss
reads the database, populates the cache, then returns. -/
def get_upi (c : Cipher) (st : StoreState) (user_id : String) (decrypt : Bool) :
    Option UPIDoc × StoreState :=
  match st.cache user_id with
  | some cached => (some (if decrypt then decrypt_dict c cached else cached), st)
  | none =>
    match st.db user_id with
    | none => (none, st)
    | some doc =>
      let st' : StoreState :=
        { st with cache := fun u => if u = user_id then some doc else st.cache u }
      (some (if decrypt then decrypt_dict c doc else doc), st')

/-- `UltimateUPIManager.save_upi` (src/utils/upi_manager.py, lines 28-104).
The whole body runs under one `try`; `upsertOk` / `analyticsOk` model the
`update_one` and the analytics `insert_one` raising (`False`) or not.  An
exception anywhere jumps to the handler, which returns `success := false`
with the message in `warnings`; mutations already performed (the upsert and
the cache write precede the analytics insert) are kept. -/
def save_upi (c : Cipher) (st : StoreState) (user_id upi_id name : String)
    (note : Option String) (encrypt : Bool) (now : ℚ)
    (upsertOk analyticsOk : Bool) : SaveResult × StoreState :=
  let document0 : UPIDoc := ⟨user_id, upi_id, name, note, now, now, 0⟩
  let document1 := if encrypt then encrypt_dict c document0 else document0
  let gotten := get_upi c st user_id false
  let document2 :=
    match gotten.1 with
    | some ex => { document1 with usage_count := ex.usage_count + 1
                                  created_at := ex.created_at }
    | none => document1
  let st1 := gotten.2
  if upsertOk then
    let inserted := (st1.db user_id).isNone
    let st2 : StoreState :=
      { st1 with db := fun u => if u = user_id then some document2 else st1.db u }
    let st3 : StoreState :=
      { st2 with cache := fun u => if u = user_id then some document2 else st2.cache u }
    if analyticsOk then
      (⟨true, if inserted then some user_id else none, []⟩, st3)
    else
      (⟨false, none, ["analytics insert_one raised"]⟩, st3)
  else
    (⟨false, none, ["update_one raised"]⟩, st1)

/-! ### src/cogs/voice.py: VoiceCog.on_voice_state_update

State of the cog: `user_temp_channels` maps a user id to the list of their
tracked temporary channel ids (`Option` distinguishes a missing dict entry
from an empty list), `user_cooldowns` maps a user id to the last creation
timestamp.  The platform is a function from a channel id to its current
member count (`none` when `guild.get_channel` returns `None`). -/

/-- In-memory state of `VoiceCog` (src/cogs/voice.py, lines 9-10). -/
structure VoiceState where
  user_temp_channels : Nat → Option (List Nat)
  user_cooldowns : Nat → Option ℚ

/-- What the join branch of the handler did. -/
inductive JoinAction where
  | movedOut
  | created (cid : Nat)
  | failed
deriving DecidableEq

/-- `channel and len(channel.members) > 0` for a tracked channel id
(src/cogs/voice.py, line 36). -/
def isActiveChannel (members : Nat → Option Nat) (cid : Nat) : Bool :=
  match members cid with
  | some n => decide (0 < n)
  | none => false

/-- The join branch of `VoiceCog.on_voice_state_update` after the cooldown
gate (src/cogs/voice.py, lines 31-83): prune the user's tracked list down to
the channels that still exist and are non-empty (the source mutates the
stored list in place, so only an existing entry is rewritten); if three or
more remain, move the user out; otherwise create (when the platform calls
succeed: `createOk`), track the fresh channel and stamp the cooldown. -/
def on_join_core (st : VoiceState) (members : Nat → Option Nat) (uid : Nat)
    (now : ℚ) (freshId : Nat) (createOk : Bool) : JoinAction × VoiceState :=
  let lst := (st.user_temp_channels uid).getD []
  let active := lst.filter (isActiveChannel members)
  let st1 : VoiceState :=
    { st with
      user_temp_channels := fun u =>
        if u = uid then (st.user_temp_channels uid).map (fun _ => active)
        else st.user_temp_channels u }
  if 3 ≤ active.length then (JoinAction.movedOut, st1)
  else if createOk then
    (JoinAction.created freshId,
      { user_temp_channels := fun u =>
          if u = uid then some (active ++ [freshId]) else st1.user_temp_channels u
        user_cooldowns := fun u =>
          if u = uid then some now else st1.user_cooldowns u })
  else
    (JoinAction.failed, st1)

/-- The join branch of `VoiceCog.on_voice_state_update`
(src/cogs/voice.py, lines 17-83): a user within the 30-second cooldown is
moved out before anything else. -/
def on_join (st : VoiceState) (members : Nat → Option Nat) (uid : Nat)
    (now : ℚ) (freshId : Nat) (createOk : Bool) : JoinAction × VoiceState :=
  match st.user_cooldowns uid with
  | some t =>
    if now - t < 30 then (JoinAction.movedOut, st)
    else on_join_core st members uid now freshId createOk
  | none => on_join_core st members uid now freshId createOk

/-- The leave branch of `VoiceCog.on_voice_state_update`
(src/cogs/voice.py, lines 85-98): for a channel whose name marks it as a
payment channel, after the 5-second sleep the member count is re-read
(`membersAtExec`); only when it is zero is the channel deleted and its id
removed from the leaving member's tracked list.  `deleteOk = false` models
`channel.delete()` raising, in which case the `except` skips the tracking
removal too. -/
def on_leave_cleanup (st : VoiceState) (uid cid : Nat) (nameIsTemp : Bool)
    (membersAtExec : Nat) (deleteOk : Bool) : Bool × VoiceState :=
  if nameIsTemp then
    if membersAtExec = 0 then
      if deleteOk then
        (true,
          { st with
            user_temp_channels := fun u =>
              if u = uid then (st.user_temp_channels uid).map (fun l => l.erase cid)
              else st.user_temp_channels u })
      else (false, st)
    else (false, st)
  else (false, st)

/-! ### src/cogs/voice_manager.py: VoiceManager

`bot.temp_channels` is modelled as an association list from channel id to its
metadata (a Python dict with unique keys).  The source file uses `os.getenv`
(lines 66 and 129) without importing `os`, so those statements raise
`NameError` at runtime — see `is_join_cooldown_run` and
`create_temp_channel_run` in the runtime-name-resolution section below.
`is_join_cooldown` and `create_temp_channel` here are the statement-level
semantics of the bodies with the import repaired, taking the configured
values (`VOICE_COOLDOWN_SECONDS`, `MAX_TEMP_CHANNELS_PER_USER`) as
parameters. -/

/-- A `bot.temp_channels` value (src/cogs/voice_manager.py, lines 100-105). -/
structure TempChannelData where
  owner : Nat
  created_at : ℚ
  guild_id : Nat
  base_channel_id : Nat
deriving DecidableEq

/-- Body of `VoiceManager._is_join_cooldown` (src/cogs/voice_manager.py,
lines 124-137) with the missing `os` import repaired: no entry means no
cooldown; an entry younger than the window means cooldown; an elapsed entry
is deleted from the map (`del self.join_cooldowns[user_id]`) and the check
returns false.  At runtime the `os` lookup at line 129 raises before the
comparison and the delete whenever an entry exists: see
`is_join_cooldown_run`. -/
def is_join_cooldown (join_cooldowns : Nat → Option ℚ) (uid : Nat)
    (now cooldown : ℚ) : Bool × (Nat → Option ℚ) :=
  match join_cooldowns uid with
  | none => (false, join_cooldowns)
  | some t =>
    if now - t < cooldown then (true, join_cooldowns)
    else (false, fun u => if u = uid then none else join_cooldowns u)

/-- Channels in `temp_channels` owned by the user
(src/cogs/voice_manager.py, lines 61-64). -/
def count_owned (temp_channels : List (Nat × TempChannelData)) (uid : Nat) : Nat :=
  (temp_channels.filter (fun kv => kv.2.owner == uid)).length

/-- Body of `VoiceManager.create_temp_channel` (src/cogs/voice_manager.py,
lines 48-122) with the missing `os` import repaired: cooldown gate, limit
gate against the count of owned tracked channels, then create, store, move,
stamp cooldown.  `createOk` models the create call raising; `moveOk` the
move raising after the entry was already stored.  Returns the created
channel id (if any), the tracking list and the cooldown map.  At runtime the
`os` lookup at line 66 (or line 129 inside the cooldown check) raises before
any of the creation steps, so the function returns `None` with nothing
mutated: see `create_temp_channel_run`. -/
def create_temp_channel (temp_channels : List (Nat × TempChannelData))
    (join_cooldowns : Nat → Option ℚ) (uid : Nat) (now : ℚ)
    (cooldownSecs : ℚ) (maxPerUser : Nat) (freshId guildId baseChannelId : Nat)
    (createOk moveOk : Bool) :
    Option Nat × List (Nat × TempChannelData) × (Nat → Option ℚ) :=
  let cd := is_join_cooldown join_cooldowns uid now cooldownSecs
  if cd.1 then (none, temp_channels, cd.2)
  else if maxPerUser ≤ count_owned temp_channels uid then (none, temp_channels, cd.2)
  else if createOk then
    let stored := (freshId, (⟨uid, now, guildId, baseChannelId⟩ : TempChannelData)) :: temp_channels
    if moveOk then
      (some freshId, stored, fun u => if u = uid then some now else cd.2 u)
    else
      (none, stored, cd.2)
  else
    (none, temp_channels, cd.2)

/-- `VoiceManager.cleanup_temp_channel` (src/cogs/voice_manager.py,
lines 139-152): untracked channels are ignored; a tracked channel is deleted
from the platform and from the map only when its member count, read at the
moment of execution, is zero.  `deleteOk = false` models `channel.delete()`
raising, in which case the map entry survives. -/
def cleanup_temp_channel (temp_channels : List (Nat × TempChannelData))
    (cid : Nat) (membersAtExec : Nat) (deleteOk : Bool) :
    Bool × List (Nat × TempChannelData) :=
  match temp_channels.lookup cid with
  | none => (false, temp_channels)
  | some _ =>
    if membersAtExec = 0 then
      if deleteOk then
        (true, temp_channels.filter (fun kv => !(kv.1 == cid)))
      else (false, temp_channels)
    else (false, temp_channels)

/-! ### Runtime name resolution

Two source files use names their module never imports:
src/utils/validators.py uses `datetime` and `timedelta` (lines 105, 113,
127) but imports only `re` and `Constants`; src/cogs/voice_manager.py uses
`os` (lines 66, 129) but never imports it.  At runtime CPython resolves each
global name when the statement executes and raises `NameError` when it is
absent.  The `..._run` definitions below are the runtime semantics of the
affected functions: they gate the function body behind an explicit lookup in
the module's global namespace, so the `NameError` paths the program actually
takes are part of the model.  The ungated definitions above
(`is_rate_limited`, `add_request`, `is_join_cooldown`,
`create_temp_channel`) are the statement-level semantics of the same bodies
with the missing import repaired — the behavior the surrounding code and the
docstrings intend — kept to state what the program would do were the slip
fixed. -/

/-- Resolution of a global name: the value is unit, only presence matters. -/
def lookupName (globals : List String) (n : String) : Except String Unit :=
  if globals.contains n then Except.ok ()
  else Except.error ("NameError: name \x27" ++ n ++ "\x27 is not defined")

/-- The global names defined in src/utils/validators.py: its two imports
(lines 1-2) and its three module-level classes.  Neither `datetime` nor
`timedelta` is among them. -/
def validatorsModuleGlobals : List String :=
  ["re", "Constants", "UPIValidator", "RateLimiter", "CooldownManager"]

/-- The global names defined in src/cogs/voice_manager.py: its imports
(lines 1-5) and its module-level bindings.  `os` is not among them. -/
def voiceManagerModuleGlobals : List String :=
  ["discord", "commands", "datetime", "logging", "Optional", "logger",
   "VoiceManager", "setup"]

/-- Runtime semantics of `RateLimiter.is_rate_limited`
(src/utils/validators.py, line 105): the first statement
`now = datetime.now()` resolves `datetime`, raising `NameError` before any
state is read or written; only if it resolved would the body
(`is_rate_limited`) run. -/
def is_rate_limited_run (rl : RateLimiter) (key : String) (now : ℚ) :
    Except String ((Bool × ℤ) × RateLimiter) :=
  match lookupName validatorsModuleGlobals "datetime" with
  | Except.error e => Except.error e
  | Except.ok _ => Except.ok (is_rate_limited rl key now)

/-- Runtime semantics of `RateLimiter.add_request`
(src/utils/validators.py, line 127): `datetime.now()` raises `NameError`
before the append (the line-126 ensure-present of `requests[key]` as `[]`
does run first, which the total-function model of the dict makes
invisible). -/
def add_request_run (rl : RateLimiter) (key : String) (now : ℚ) :
    Except String RateLimiter :=
  match lookupName validatorsModuleGlobals "datetime" with
  | Except.error e => Except.error e
  | Except.ok _ => Except.ok (add_request rl key now)

/-- Runtime semantics of `VoiceManager._is_join_cooldown`
(src/cogs/voice_manager.py, lines 124-137): the no-entry early return at
line 126 runs first and touches no missing name; with an entry present,
line 129 resolves `os` and raises `NameError` before the comparison and
before the `del`, so the map is never mutated at runtime. -/
def is_join_cooldown_run (join_cooldowns : Nat → Option ℚ) (uid : Nat)
    (now cooldown : ℚ) : Except String (Bool × (Nat → Option ℚ)) :=
  match join_cooldowns uid with
  | none => Except.ok (false, join_cooldowns)
  | some t =>
    match lookupName voiceManagerModuleGlobals "os" with
    | Except.error e => Except.error e
    | Except.ok _ =>
      if now - t < cooldown then Except.ok (true, join_cooldowns)
      else Except.ok (false, fun u => if u = uid then none else join_cooldowns u)

/-- Runtime semantics of `VoiceManager.create_temp_channel`
(src/cogs/voice_manager.py, lines 48-122): the cooldown check may raise
`NameError` (entry present), otherwise line 66 resolves `os` for the limit
and raises; both raises happen before any store or cooldown write, and the
function's own `try/except` turns them into a `None` return with the state
it had on entry. -/
def create_temp_channel_run (temp_channels : List (Nat × TempChannelData))
    (join_cooldowns : Nat → Option ℚ) (uid : Nat) (now : ℚ)
    (cooldownSecs : ℚ) (maxPerUser : Nat) (freshId guildId baseChannelId : Nat)
    (createOk moveOk : Bool) :
    Option Nat × List (Nat × TempChannelData) × (Nat → Option ℚ) :=
  match is_join_cooldown_run join_cooldowns uid now cooldownSecs with
  | Except.error _ => (none, temp_channels, join_cooldowns)
  | Except.ok cd =>
    if cd.1 then (none, temp_channels, cd.2)
    else
      match lookupName voiceManagerModuleGlobals "os" with
      | Except.error _ => (none, temp_channels, cd.2)
      | Except.ok _ =>
        if maxPerUser ≤ count_owned temp_channels uid then
          (none, temp_channels, cd.2)
        else if createOk then
          let stored :=
            (freshId, (⟨uid, now, guildId, baseChannelId⟩ : TempChannelData))
              :: temp_channels
          if moveOk then
            (some freshId, stored, fun u => if u = uid then some now else cd.2 u)
          else
            (none, stored, cd.2)
        else
          (none, temp_channels, cd.2)

/-- A cipher usable as a concrete witness instance: prepend a tag character
to encrypt, strip it to decrypt. -/
def tagCipher : Cipher where
  enc s := String.mk ('E' :: s.data)
  dec s :=
    match s.data with
    | 'E' :: rest => some (String.mk rest)
    | _ => none

/-! ## Theorems -/

/-- An allowed username character is not the separator `@`. -/
theorem allowedUsernameChar_ne_at {c : Char} (h : allowedUsernameChar c = true) :
    ¬ c = '@' := by
  intro hc
  subst hc
  exact absurd h (by decide)

/-- `splitFirst` at the first separator of `u ++ sep :: p` when `u` is free of
the separator. -/
theorem splitFirst_sep_append (u p : List Char)
    (h : ∀ c ∈ u, ¬ c = '@') :
    splitFirst '@' (u ++ '@' :: p) = (u, some p) := by
  induction u with
  | nil => simp [splitFirst]
  | cons c rest ih =>
    have hc : (c == '@') = false := by
      simpa using h c (List.mem_cons_self c rest)
    have ih' := ih (fun x hx => h x (List.mem_cons_of_mem c hx))
    simp [splitFirst, hc, ih']

/-- C6: for every UPI id whose username portion matches
`^[A-Za-z0-9._-]{3,100}$` and has no leading dot, no trailing dot, and no
consecutive dots, the username validation step passes (reports no username
error), for every provider portion: `validate_username` accepts the
username, and the username that `validate` extracts from
`username ++ "@" ++ provider` is exactly that username, so it is accepted no
matter the provider. -/
theorem upi_username_validation_passes (u p : String)
    (h3 : 3 ≤ u.data.length)
    (h100 : u.data.length ≤ MAX_UPI_LENGTH)
    (hall : u.data.all allowedUsernameChar = true)
    (hhd : headIs '.' u.data = false)
    (hlast : lastIs '.' u.data = false)
    (hdd : hasDoubleDot u.data = false) :
    validate_username u = none ∧
    validate_username (String.mk (splitFirst '@' (u ++ "@" ++ p).data).1) = none := by
  have hne : ¬ u.data.isEmpty = true := by
    cases hu : u.data with
    | nil => rw [hu] at h3; simp at h3
    | cons a l => simp
  have h1 : validate_username u = none := by
    unfold validate_username
    rw [if_neg hne, if_neg (by omega), if_neg (by omega)]
    rw [hhd, hlast, hdd, hall]
    simp
  refine ⟨h1, ?_⟩
  have hdata : (u ++ "@" ++ p).data = u.data ++ '@' :: p.data := by
    rw [String.data_append, String.data_append, List.append_assoc]
    rfl
  have hsplit : splitFirst '@' (u ++ "@" ++ p).data = (u.data, some p.data) := by
    rw [hdata]
    exact splitFirst_sep_append u.data p.data
      (fun c hc => allowedUsernameChar_ne_at (by
        have := List.all_eq_true.mp hall c hc
        exact this))
  rw [hsplit]
  exact h1

/-- Witness for C6 at the concrete UPI id `abc@okaxis`. -/
theorem upi_username_validation_passes_witness :
    validate_username "abc" = none ∧
    validate_username
      (String.mk (splitFirst '@' ("abc" ++ "@" ++ "okaxis").data).1) = none :=
  upi_username_validation_passes "abc" "okaxis" (by decide) (by decide)
    (by decide) (by decide) (by decide) (by decide)

/-- Every error `validate_username` can produce is a non-empty message. -/
theorem validate_username_error_ne_empty (u : String) (e : String)
    (he : validate_username u = some e) : ¬ e = "" := by
  unfold validate_username at he
  split_ifs at he <;> simp only [Option.some.injEq] at he <;> subst he <;> decide

/-- The result of `validate_provider` is well-formed: an invalid result has a
non-empty error, a valid one has an empty error. -/
theorem validate_provider_wf (p : String) :
    ((validate_provider p).valid = false → ¬ (validate_provider p).error = "") ∧
    ((validate_provider p).valid = true → (validate_provider p).error = "") := by
  unfold validate_provider
  split_ifs <;>
    refine ⟨fun h => ?_, fun h => ?_⟩ <;>
      first
        | exact absurd h (by decide)
        | decide
        | rfl

/-- C9: for every input string, the validator's result is well-formed: when
`valid` is false the warnings list is empty and the error message is
non-empty, and when `valid` is true the error message is empty. -/
theorem validate_result_well_formed (s : String) :
    ((validate s).valid = false →
      (validate s).warnings = [] ∧ ¬ (validate s).error = "") ∧
    ((validate s).valid = true → (validate s).error = "") := by
  unfold validate
  split
  · exact ⟨fun _ => ⟨rfl, by decide⟩, fun h => by simp at h⟩
  · split
    · exact ⟨fun _ => ⟨rfl, by decide⟩, fun h => by simp at h⟩
    · split
      · rename_i err herr
        exact ⟨fun _ => ⟨rfl, validate_username_error_ne_empty _ _ herr⟩,
          fun h => by simp at h⟩
      · dsimp only
        split
        · rename_i hval
          refine ⟨fun _ => ⟨rfl, ?_⟩, fun h => by simp at h⟩
          exact (validate_provider_wf _).1 (by simpa using hval)
        · split
          · exact ⟨fun h => by simp at h, fun _ => rfl⟩
          · exact ⟨fun h => by simp at h, fun _ => rfl⟩

/-- C10: for an amount that is absent, zero, or negative, the built params
carry no `am` field at all, while `pa`, `pn` and `cu` are still present. -/
theorem no_amount_field_when_nonpositive (upi_id name : String)
    (note : Option String) (amount : Option ℚ)
    (hamt : amount = none ∨ ∃ a, amount = some a ∧ a ≤ 0) :
    ¬ "am" ∈ (build_upi_params upi_id name amount note).map Prod.fst ∧
    "pa" ∈ (build_upi_params upi_id name amount note).map Prod.fst ∧
    "pn" ∈ (build_upi_params upi_id name amount note).map Prod.fst ∧
    "cu" ∈ (build_upi_params upi_id name amount note).map Prod.fst := by
  have hno : (match amount with
      | some a => if a ≠ 0 ∧ 0 < a then [("am", fmtTwoDec a)] else []
      | none => ([] : List (String × String))) = [] := by
    rcases hamt with rfl | ⟨a, rfl, ha⟩
    · rfl
    · have : ¬ (a ≠ 0 ∧ 0 < a) := by
        rintro ⟨-, hpos⟩
        exact absurd hpos (not_lt.mpr ha)
      simp [this]
  unfold build_upi_params
  rw [hno]
  rcases note with _ | s
  · refine ⟨?_, ?_, ?_, ?_⟩ <;> simp
  · by_cases hs : s = ""
    · refine ⟨?_, ?_, ?_, ?_⟩ <;> simp [hs]
    · refine ⟨?_, ?_, ?_, ?_⟩ <;> simp [hs]

/-- Witness for C10 at amount `-5` and a supplied note. -/
theorem no_amount_field_when_nonpositive_witness :
    ¬ "am" ∈ (build_upi_params "a@b" "N" (some (-5)) (some "x")).map Prod.fst ∧
    "pa" ∈ (build_upi_params "a@b" "N" (some (-5)) (some "x")).map Prod.fst ∧
    "pn" ∈ (build_upi_params "a@b" "N" (some (-5)) (some "x")).map Prod.fst ∧
    "cu" ∈ (build_upi_params "a@b" "N" (some (-5)) (some "x")).map Prod.fst :=
  no_amount_field_when_nonpositive "a@b" "N" (some "x") (some (-5))
    (Or.inr ⟨-5, rfl, by norm_num⟩)

/-- A key erased from an association list by filtering is no longer found. -/
theorem lookup_filter_self {β : Type} (tc : List (Nat × β)) (cid : Nat) :
    (tc.filter (fun kv => !(kv.1 == cid))).lookup cid = none := by
  induction tc with
  | nil => rfl
  | cons kv t ih =>
    by_cases h : kv.1 = cid
    · simp [List.filter, h, ih]
    · have h1 : (kv.1 == cid) = false := by simpa using h
      have h2 : (cid == kv.1) = false := by simpa using (Ne.symm h)
      simp [List.filter, h1, List.lookup, h2, ih]

/-- C1: a user who already owns 3 non-empty tracked temporary channels is
moved out on joining a monitored lobby channel and no 4th channel is
created: in `VoiceCog.on_voice_state_update` the action is a move-out and
the tracking entry is unchanged (whether the cooldown branch or the cap
branch fires), and in `VoiceManager.create_temp_channel` (which counts every
owned tracked channel, so at least the 3 non-empty ones) no channel id is
returned and the tracking list is unchanged. -/
theorem third_channel_cap_blocks_creation
    (st : VoiceState) (members : Nat → Option Nat) (uid : Nat) (l : List Nat)
    (now : ℚ) (freshId : Nat) (createOk : Bool)
    (tc : List (Nat × TempChannelData)) (jc : Nat → Option ℚ)
    (cooldownSecs : ℚ) (guildId baseChannelId : Nat) (createOk2 moveOk2 : Bool)
    (hl : st.user_temp_channels uid = some l)
    (hlen : l.length = 3)
    (hact : ∀ c ∈ l, isActiveChannel members c = true)
    (hcnt : 3 ≤ count_owned tc uid) :
    (on_join st members uid now freshId createOk).1 = JoinAction.movedOut ∧
    (on_join st members uid now freshId createOk).2.user_temp_channels uid = some l ∧
    (create_temp_channel tc jc uid now cooldownSecs 3 freshId guildId
        baseChannelId createOk2 moveOk2).1 = none ∧
    (create_temp_channel tc jc uid now cooldownSecs 3 freshId guildId
        baseChannelId createOk2 moveOk2).2.1 = tc := by
  have hfilter : l.filter (isActiveChannel members) = l :=
    List.filter_eq_self.mpr hact
  have hcore : (on_join_core st members uid now freshId createOk).1 =
      JoinAction.movedOut ∧
      (on_join_core st members uid now freshId createOk).2.user_temp_channels uid
        = some l := by
    unfold on_join_core
    rw [hl]
    simp only [Option.getD_some, hfilter, hlen]
    norm_num
  have hvm : (create_temp_channel tc jc uid now cooldownSecs 3 freshId guildId
        baseChannelId createOk2 moveOk2).1 = none ∧
      (create_temp_channel tc jc uid now cooldownSecs 3 freshId guildId
        baseChannelId createOk2 moveOk2).2.1 = tc := by
    unfold create_temp_channel
    cases hcd : (is_join_cooldown jc uid now cooldownSecs).1 <;>
      simp [hcd, hcnt]
  refine ⟨?_, ?_, hvm.1, hvm.2⟩ <;>
  · unfold on_join
    cases hjc : st.user_cooldowns uid with
    | none => simp [hcore.1, hcore.2]
    | some t =>
      by_cases ht : now - t < 30
      · simp [ht, hl]
      · simp [ht, hcore.1, hcore.2]

/-- Witness for C1: a user owning the three non-empty channels 10, 11, 12. -/
theorem third_channel_cap_blocks_creation_witness :
    (on_join
        ⟨fun u => if u = 1 then some [10, 11, 12] else none, fun _ => none⟩
        (fun _ => some 1) 1 0 99 true).1 = JoinAction.movedOut ∧
    (on_join
        ⟨fun u => if u = 1 then some [10, 11, 12] else none, fun _ => none⟩
        (fun _ => some 1) 1 0 99 true).2.user_temp_channels 1 = some [10, 11, 12] ∧
    (create_temp_channel
        [(10, ⟨1, 0, 5, 6⟩), (11, ⟨1, 0, 5, 6⟩), (12, ⟨1, 0, 5, 6⟩)]
        (fun _ => none) 1 0 30 3 99 5 6 true true).1 = none ∧
    (create_temp_channel
        [(10, ⟨1, 0, 5, 6⟩), (11, ⟨1, 0, 5, 6⟩), (12, ⟨1, 0, 5, 6⟩)]
        (fun _ => none) 1 0 30 3 99 5 6 true true).2.1 =
      [(10, ⟨1, 0, 5, 6⟩), (11, ⟨1, 0, 5, 6⟩), (12, ⟨1, 0, 5, 6⟩)] :=
  third_channel_cap_blocks_creation
    ⟨fun u => if u = 1 then some [10, 11, 12] else none, fun _ => none⟩
    (fun _ => some 1) 1 [10, 11, 12] 0 99 true
    [(10, ⟨1, 0, 5, 6⟩), (11, ⟨1, 0, 5, 6⟩), (12, ⟨1, 0, 5, 6⟩)]
    (fun _ => none) 30 5 6 true true
    (by simp) (by decide) (by decide) (by decide)

/-- C2: a tracked temporary channel found empty when the deferred cleanup
runs (after the grace delay) is deleted from the platform and removed from
the tracking map, and one that has a member at that moment is not deleted
and the state is unchanged — in both the `VoiceManager.cleanup_temp_channel`
form (tracking keyed by channel id) and the `VoiceCog` leave-branch form
(tracking keyed by the leaving owner), whose emptiness test reads the member
count at execution time. -/
theorem empty_channel_cleanup_after_grace
    (tc : List (Nat × TempChannelData)) (cid : Nat) (d : TempChannelData)
    (st : VoiceState) (uid : Nat) (l : List Nat)
    (htc : tc.lookup cid = some d)
    (hst : st.user_temp_channels uid = some l)
    (hmem : cid ∈ l) (hnd : l.Nodup) :
    ((cleanup_temp_channel tc cid 0 true).1 = true ∧
     (cleanup_temp_channel tc cid 0 true).2.lookup cid = none) ∧
    (∀ m, 0 < m → ∀ dok, cleanup_temp_channel tc cid m dok = (false, tc)) ∧
    ((on_leave_cleanup st uid cid true 0 true).1 = true ∧
     ¬ cid ∈ ((on_leave_cleanup st uid cid true 0 true).2.user_temp_channels uid).getD []) ∧
    (∀ m, 0 < m → ∀ dok, on_leave_cleanup st uid cid true m dok = (false, st)) := by
  refine ⟨⟨?_, ?_⟩, ?_, ⟨?_, ?_⟩, ?_⟩
  · unfold cleanup_temp_channel
    rw [htc]
    simp
  · unfold cleanup_temp_channel
    rw [htc]
    simp [lookup_filter_self]
  · intro m hm dok
    unfold cleanup_temp_channel
    rw [htc]
    simp [Nat.pos_iff_ne_zero.mp hm]
  · unfold on_leave_cleanup
    simp
  · unfold on_leave_cleanup
    simp only [if_pos rfl]
    rw [hst]
    simpa using hnd.not_mem_erase
  · intro m hm dok
    unfold on_leave_cleanup
    simp [Nat.pos_iff_ne_zero.mp hm]

/-- Witness for C2: channel 10 tracked for owner 1. -/
theorem empty_channel_cleanup_after_grace_witness :
    ((cleanup_temp_channel [(10, ⟨1, 0, 5, 6⟩)] 10 0 true).1 = true ∧
     (cleanup_temp_channel [(10, ⟨1, 0, 5, 6⟩)] 10 0 true).2.lookup 10 = none) ∧
    (∀ m, 0 < m → ∀ dok,
      cleanup_temp_channel [(10, ⟨1, 0, 5, 6⟩)] 10 m dok =
        (false, [(10, ⟨1, 0, 5, 6⟩)])) ∧
    ((on_leave_cleanup
        ⟨fun u => if u = 1 then some [10] else none, fun _ => none⟩
        1 10 true 0 true).1 = true ∧
     ¬ 10 ∈ ((on_leave_cleanup
        ⟨fun u => if u = 1 then some [10] else none, fun _ => none⟩
        1 10 true 0 true).2.user_temp_channels 1).getD []) ∧
    (∀ m, 0 < m → ∀ dok,
      on_leave_cleanup
        ⟨fun u => if u = 1 then some [10] else none, fun _ => none⟩
        1 10 true m dok =
      (false, ⟨fun u => if u = 1 then some [10] else none, fun _ => none⟩)) :=
  empty_channel_cleanup_after_grace [(10, ⟨1, 0, 5, 6⟩)] 10 ⟨1, 0, 5, 6⟩
    ⟨fun u => if u = 1 then some [10] else none, fun _ => none⟩ 1 [10]
    (by decide) (by simp) (by decide) (by decide)

/-- C7: the per-user join-cooldown entry, once written, is never deleted for
the lifetime of the process.  In `VoiceCog.on_voice_state_update`
(src/cogs/voice.py) an existing `user_cooldowns` entry survives every run of
the join handler (entries are only added or overwritten), and the entry is
written on successful channel creation.  In the `VoiceManager` variant the
runtime never removes a `join_cooldowns` entry either: a check that finds no
entry returns false with the map untouched, a check that finds one raises
`NameError` at the unresolvable `os` before reaching its delete statement
(so the map is not mutated and the caller swallows the exception), and
`create_temp_channel` at runtime always returns `None` leaving both the
tracking list and the cooldown map exactly as they were on entry. -/
theorem cooldown_entry_retained
    (st : VoiceState) (members : Nat → Option Nat) (u2 : Nat) (now2 : ℚ)
    (fid : Nat) (cok : Bool) (u : Nat) (t0 : ℚ)
    (jc : Nat → Option ℚ) (uid : Nat) (now cooldown : ℚ)
    (tc : List (Nat × TempChannelData)) (cooldownSecs : ℚ) (maxPerUser : Nat)
    (freshId guildId baseChannelId : Nat) (createOk moveOk : Bool)
    (hu : st.user_cooldowns u = some t0) :
    (∃ t', (on_join st members u2 now2 fid cok).2.user_cooldowns u = some t') ∧
    ((on_join st members u2 now2 fid cok).1 = JoinAction.created fid →
      (on_join st members u2 now2 fid cok).2.user_cooldowns u2 = some now2) ∧
    (jc uid = none →
      is_join_cooldown_run jc uid now cooldown = Except.ok (false, jc)) ∧
    (∀ t, jc uid = some t →
      is_join_cooldown_run jc uid now cooldown =
        Except.error "NameError: name \x27os\x27 is not defined") ∧
    create_temp_channel_run tc jc uid now cooldownSecs maxPerUser freshId
      guildId baseChannelId createOk moveOk = (none, tc, jc) := by
  have hlook : lookupName voiceManagerModuleGlobals "os" =
      Except.error "NameError: name \x27os\x27 is not defined" := rfl
  refine ⟨?_, ?_, ?_, ?_, ?_⟩
  · have hcore : ∃ t', (on_join_core st members u2 now2 fid cok).2.user_cooldowns u
        = some t' := by
      unfold on_join_core
      by_cases hcap :
        3 ≤ (((st.user_temp_channels u2).getD []).filter (isActiveChannel members)).length
      · exact ⟨t0, by simp [hcap, hu]⟩
      · cases cok with
        | false => exact ⟨t0, by simp [hcap, hu]⟩
        | true =>
          by_cases huu : u = u2
          · exact ⟨now2, by simp [hcap, huu]⟩
          · exact ⟨t0, by simp [hcap, huu, hu]⟩
    unfold on_join
    cases hjc2 : st.user_cooldowns u2 with
    | none => exact hcore
    | some t2 =>
      by_cases ht2 : now2 - t2 < 30
      · exact ⟨t0, by simp [ht2, hu]⟩
      · simpa [ht2] using hcore
  · unfold on_join on_join_core
    cases hjc2 : st.user_cooldowns u2 with
    | none =>
      by_cases hcap :
        3 ≤ (((st.user_temp_channels u2).getD []).filter (isActiveChannel members)).length
      · simp [hcap]
      · cases cok <;> simp [hcap]
    | some t2 =>
      by_cases ht2 : now2 - t2 < 30
      · simp [ht2]
      · by_cases hcap :
          3 ≤ (((st.user_temp_channels u2).getD []).filter (isActiveChannel members)).length
        · simp [ht2, hcap]
        · cases cok <;> simp [ht2, hcap]
  · intro h
    unfold is_join_cooldown_run
    rw [h]
  · intro t ht
    unfold is_join_cooldown_run
    rw [ht, hlook]
  · unfold create_temp_channel_run is_join_cooldown_run
    cases hj : jc uid with
    | none => simp [hlook]
    | some t => simp [hlook]

/-- Witness for C7: a `VoiceCog` state holding a cooldown entry for user 2,
and a `VoiceManager` cooldown map `{1 ↦ 0}` checked at time 30 with a
30-second window over an empty tracking list. -/
theorem cooldown_entry_retained_witness :
    (∃ t', (on_join ⟨fun _ => none, fun u => if u = 2 then some (7 : ℚ) else none⟩
        (fun _ => none) 1 40 99 true).2.user_cooldowns 2 = some t') ∧
    ((on_join ⟨fun _ => none, fun u => if u = 2 then some (7 : ℚ) else none⟩
        (fun _ => none) 1 40 99 true).1 = JoinAction.created 99 →
      (on_join ⟨fun _ => none, fun u => if u = 2 then some (7 : ℚ) else none⟩
        (fun _ => none) 1 40 99 true).2.user_cooldowns 1 = some 40) ∧
    ((fun u => if u = 1 then some (0 : ℚ) else none) 1 = none →
      is_join_cooldown_run (fun u => if u = 1 then some (0 : ℚ) else none)
        1 30 30 =
        Except.ok (false, fun u => if u = 1 then some (0 : ℚ) else none)) ∧
    (∀ t, (fun u => if u = 1 then some (0 : ℚ) else none) 1 = some t →
      is_join_cooldown_run (fun u => if u = 1 then some (0 : ℚ) else none)
        1 30 30 =
        Except.error "NameError: name \x27os\x27 is not defined") ∧
    create_temp_channel_run [] (fun u => if u = 1 then some (0 : ℚ) else none)
      1 30 30 3 99 5 6 true true =
      (none, [], fun u => if u = 1 then some (0 : ℚ) else none) :=
  cooldown_entry_retained
    ⟨fun _ => none, fun u => if u = 2 then some (7 : ℚ) else none⟩
    (fun _ => none) 1 40 99 true 2 7
    (fun u => if u = 1 then some (0 : ℚ) else none) 1 30 30
    [] 30 3 99 5 6 true true
    (by simp)

/-- A left fold of `min` never exceeds its initial value. -/
theorem foldl_min_le_init {α : Type} [LinearOrder α] (tl : List α) (h : α) :
    tl.foldl min h ≤ h := by
  induction tl generalizing h with
  | nil => simp
  | cons a t ih =>
    calc t.foldl min (min h a) ≤ min h a := ih (min h a)
    _ ≤ h := min_le_left h a

/-- A strict lower bound of the initial value and of every element bounds a
left fold of `min`. -/
theorem lt_foldl_min {α : Type} [LinearOrder α] (tl : List α) (b h : α)
    (hb : b < h) (ht : ∀ x ∈ tl, b < x) : b < tl.foldl min h := by
  induction tl generalizing h with
  | nil => simpa using hb
  | cons a t ih =>
    simp only [List.foldl_cons]
    exact ih (min h a) (lt_min hb (ht a (List.mem_cons_self a t)))
      (fun x hx => ht x (List.mem_cons_of_mem a hx))

/-- The rate-limiter body, its missing `datetime` import repaired, computes
the documented sliding-window behavior: with `max_requests = 5` and
`window = 60`, after five `add_request` calls on a key at times within the
window of the check time, the next `is_rate_limited` check on that key
reports limited with a `retry_after` that is positive and at most 60.  This
is evidence of the intent behind the body; the program as it stands raises
before reaching it (see `rate_limiter_call_raises_name_error`). -/
theorem rate_limiter_sixth_check_limited (key : String) (now t1 t2 t3 t4 t5 : ℚ)
    (h1 : t1 ≤ now) (h1w : now - t1 < 60)
    (h2 : t2 ≤ now) (h2w : now - t2 < 60)
    (h3 : t3 ≤ now) (h3w : now - t3 < 60)
    (h4 : t4 ≤ now) (h4w : now - t4 < 60)
    (h5 : t5 ≤ now) (h5w : now - t5 < 60) :
    ((is_rate_limited
        (add_request (add_request (add_request (add_request (add_request
          ⟨5, 60, fun _ => []⟩ key t1) key t2) key t3) key t4) key t5)
        key now).1.1 = true) ∧
    0 < (is_rate_limited
        (add_request (add_request (add_request (add_request (add_request
          ⟨5, 60, fun _ => []⟩ key t1) key t2) key t3) key t4) key t5)
        key now).1.2 ∧
    (is_rate_limited
        (add_request (add_request (add_request (add_request (add_request
          ⟨5, 60, fun _ => []⟩ key t1) key t2) key t3) key t4) key t5)
        key now).1.2 ≤ 60 := by
  set RL : RateLimiter :=
    add_request (add_request (add_request (add_request (add_request
      ⟨5, 60, fun _ => []⟩ key t1) key t2) key t3) key t4) key t5 with hRL
  have hreq : RL.requests key = [t1, t2, t3, t4, t5] := by
    rw [hRL]
    simp [add_request]
  have hwin : RL.window = 60 := rfl
  have hmax : RL.max_requests = 5 := rfl
  have hfil : [t1, t2, t3, t4, t5].filter
      (fun t => decide (now - t < ((60 : ℤ) : ℚ))) = [t1, t2, t3, t4, t5] := by
    refine List.filter_eq_self.mpr ?_
    intro a ha
    simp only [decide_eq_true_eq]
    push_cast
    simp only [List.mem_cons, List.not_mem_nil, or_false] at ha
    rcases ha with rfl | rfl | rfl | rfl | rfl <;> assumption
  have hmin_le : min (min (min (min t1 t2) t3) t4) t5 ≤ t1 :=
    le_trans (min_le_left _ _)
      (le_trans (min_le_left _ _) (le_trans (min_le_left _ _) (min_le_left _ _)))
  have hmin_gt : now - 60 < min (min (min (min t1 t2) t3) t4) t5 := by
    refine lt_min (lt_min (lt_min (lt_min ?_ ?_) ?_) ?_) ?_ <;> linarith
  have hnn : (0 : ℚ) ≤ now - min (min (min (min t1 t2) t3) t4) t5 := by linarith
  have hfloor_lt : ⌊now - min (min (min (min t1 t2) t3) t4) t5⌋ < 60 := by
    refine Int.floor_lt.mpr ?_
    push_cast
    linarith
  have hfloor_nn : 0 ≤ ⌊now - min (min (min (min t1 t2) t3) t4) t5⌋ :=
    Int.floor_nonneg.mpr hnn
  unfold is_rate_limited
  rw [hreq, hwin, hmax, hfil]
  simp only [List.length_cons, List.length_nil]
  norm_num [List.foldl, pyInt, hnn]
  omega

/-- The repaired rate-limiter body at times 10, 20, 30, 40, 45 with the
check at time 50. -/
theorem rate_limiter_sixth_check_limited_witness :
    ((is_rate_limited
        (add_request (add_request (add_request (add_request (add_request
          ⟨5, 60, fun _ => []⟩ "u" 10) "u" 20) "u" 30) "u" 40) "u" 45)
        "u" 50).1.1 = true) ∧
    0 < (is_rate_limited
        (add_request (add_request (add_request (add_request (add_request
          ⟨5, 60, fun _ => []⟩ "u" 10) "u" 20) "u" 30) "u" 40) "u" 45)
        "u" 50).1.2 ∧
    (is_rate_limited
        (add_request (add_request (add_request (add_request (add_request
          ⟨5, 60, fun _ => []⟩ "u" 10) "u" 20) "u" 30) "u" 40) "u" 45)
        "u" 50).1.2 ≤ 60 :=
  rate_limiter_sixth_check_limited "u" 50 10 20 30 40 45
    (by norm_num) (by norm_num) (by norm_num) (by norm_num) (by norm_num)
    (by norm_num) (by norm_num) (by norm_num) (by norm_num) (by norm_num)

/-- C5 (code bug): src/utils/validators.py never imports `datetime` or
`timedelta`, so at runtime every `RateLimiter.is_rate_limited` call raises
`NameError: name \x27datetime\x27 is not defined` at its first statement
`now = datetime.now()` (line 105), and every `add_request` call raises the
same at line 127 — in particular, after five recorded requests the next
check on the key cannot return `limited = true` with any `retry_after`: it
raises.  The claimed sliding-window result is exactly what the body computes
once the import is repaired (`rate_limiter_sixth_check_limited`), so the
claim matches the documented intent and the missing import is the bug. -/
theorem rate_limiter_call_raises_name_error (rl : RateLimiter) (key : String)
    (now : ℚ) :
    is_rate_limited_run rl key now =
      Except.error "NameError: name \x27datetime\x27 is not defined" ∧
    add_request_run rl key now =
      Except.error "NameError: name \x27datetime\x27 is not defined" :=
  ⟨rfl, rfl⟩

/-- Decrypting an encrypted field recovers the original value, provided the
cipher round-trips and never produces an empty token (Fernet tokens are
non-empty). -/
theorem decField_encField (c : Cipher)
    (hdec : ∀ s, c.dec (c.enc s) = some s)
    (henc : ∀ s, ¬ c.enc s = "") (s : String) :
    decField c (encField c s) = s := by
  unfold encField decField
  by_cases h : s.data.isEmpty
  · simp [h]
  · rw [if_neg h]
    have h2 : ¬ (c.enc s).data.isEmpty = true := by
      intro hh
      exact henc s (String.ext (by simpa using hh))
    rw [if_neg h2, hdec s, Option.getD_some]

/-- C3: a `save_upi` with encryption enabled followed by a
`get_upi` with `decrypt := true` returns the original plaintext `upi_id`,
`name` and `note`, through the store and its cache, for any cipher that
round-trips and produces non-empty tokens. -/
theorem save_get_roundtrip_plaintext (c : Cipher)
    (hdec : ∀ s, c.dec (c.enc s) = some s)
    (henc : ∀ s, ¬ c.enc s = "")
    (st : StoreState) (user_id upi_id name note : String) (now : ℚ) :
    ∃ d, (get_upi c
        (save_upi c st user_id upi_id name (some note) true now true true).2
        user_id true).1 = some d ∧
      d.upi_id = upi_id ∧ d.name = name ∧ d.note = some note := by
  have hde := decField_encField c hdec henc
  simp only [save_upi, eq_self_iff_true, if_true]
  cases hg : (get_upi c st user_id false).1 with
  | none => simp [hg, get_upi, decrypt_dict, encrypt_dict, hde]
  | some ex => simp [hg, get_upi, decrypt_dict, encrypt_dict, hde]

/-- Witness for C3 with the concrete tag cipher and an empty store. -/
theorem save_get_roundtrip_plaintext_witness :
    ∃ d, (get_upi tagCipher
        (save_upi tagCipher ⟨fun _ => none, fun _ => none⟩ "u" "a@b" "Name"
          (some "note") true 0 true true).2
        "u" true).1 = some d ∧
      d.upi_id = "a@b" ∧ d.name = "Name" ∧ d.note = some "note" :=
  save_get_roundtrip_plaintext tagCipher (fun _ => rfl)
    (fun s h => by simpa [tagCipher] using congrArg String.data h)
    ⟨fun _ => none, fun _ => none⟩ "u" "a@b" "Name" "note" 0

/-- C8 counterexample: a save into an empty store whose upsert and cache
refresh succeed but whose analytics insert raises reports
`success = false`, not success. -/
theorem save_analytics_failure_counterexample :
    (save_upi tagCipher ⟨fun _ => none, fun _ => none⟩ "u" "a@b" "Name"
      (some "note") true 0 true false).1.success = false ∧
    ((save_upi tagCipher ⟨fun _ => none, fun _ => none⟩ "u" "a@b" "Name"
      (some "note") true 0 true false).2.db "u").isSome = true ∧
    ((save_upi tagCipher ⟨fun _ => none, fun _ => none⟩ "u" "a@b" "Name"
      (some "note") true 0 true false).2.cache "u").isSome = true := by
  refine ⟨rfl, ?_, ?_⟩ <;> simp [save_upi, get_upi]

/-- C8 as amended: when the upsert and cache refresh succeed but the
analytics insert fails, `save_upi` reports `success = false` (the analytics
insert sits inside the same `try` as the upsert, so its exception reaches
the handler that reports failure), while the upserted record and the
refreshed cache entry persist and agree. -/
theorem save_reports_failure_on_analytics_error (c : Cipher) (st : StoreState)
    (user_id upi_id name : String) (note : Option String) (encrypt : Bool)
    (now : ℚ) :
    (save_upi c st user_id upi_id name note encrypt now true false).1.success
      = false ∧
    ((save_upi c st user_id upi_id name note encrypt now true false).2.db
      user_id).isSome = true ∧
    (save_upi c st user_id upi_id name note encrypt now true false).2.cache
      user_id =
      (save_upi c st user_id upi_id name note encrypt now true false).2.db
        user_id := by
  unfold save_upi
  cases hg : (get_upi c st user_id false).1 <;> simp

/-- `String.intercalate` on a five-element list spelled out. -/
theorem intercalate_five (a b c d e : String) :
    String.intercalate "&" [a, b, c, d, e] =
      a ++ "&" ++ b ++ "&" ++ c ++ "&" ++ d ++ "&" ++ e := by
  simp [String.intercalate, String.intercalate.go]

/-- `Nat.digitChar` of a value below ten is a digit character. -/
theorem digitChar_isDigit : ∀ m < 10, (Nat.digitChar m).isDigit = true := by
  decide

/-- Helper evaluation: the two-decimal rendering of the amount 1. -/
theorem fmtTwoDec_one : fmtTwoDec 1 = "1.00" := by
  have h1 : roundHalfEven (100 * 1) = 100 := by
    unfold roundHalfEven
    norm_num
  unfold fmtTwoDec
  rw [h1]
  decide

/-- Helper evaluation: the two-decimal rendering of the amount 100. -/
theorem fmtTwoDec_hundred : fmtTwoDec 100 = "100.00" := by
  have h1 : roundHalfEven (100 * 100) = 10000 := by
    unfold roundHalfEven
    norm_num
  unfold fmtTwoDec
  rw [h1]
  decide

/-- C4 counterexample: for id `a@b`, name `N`, amount 1 and note `hi` the
generated payload is `upi://pay?pa=a%40b&pn=N&cu=INR&am=1.00&tn=hi` — the
currency field precedes the amount and note fields — and not the claimed
`upi://pay?pa=a%40b&pn=N&am=1.00&tn=hi&cu=INR` ordering. -/
theorem qr_url_field_order_counterexample :
    build_upi_url "a@b" "N" (some 1) (some "hi") =
      "upi://pay?pa=a%40b&pn=N&cu=INR&am=1.00&tn=hi" ∧
    ¬ build_upi_url "a@b" "N" (some 1) (some "hi") =
      "upi://pay?pa=a%40b&pn=N&am=1.00&tn=hi&cu=INR" := by
  have hurl : build_upi_url "a@b" "N" (some 1) (some "hi") =
      "upi://pay?pa=a%40b&pn=N&cu=INR&am=1.00&tn=hi" := by
    simp only [build_upi_url, build_upi_params]
    rw [if_pos (show (1 : ℚ) ≠ 0 ∧ (0 : ℚ) < 1 from ⟨by norm_num, by norm_num⟩)]
    rw [if_pos (show ¬ ("hi" : String) = "" by decide)]
    rw [fmtTwoDec_one]
    decide
  exact ⟨hurl, by rw [hurl]; decide⟩

/-- C4 as amended: for every id, name, positive amount and non-empty note,
the payload has the format
`upi://pay?pa=<id>&pn=<name>&cu=INR&am=<amount>&tn=<note>` — fields
percent-encoded, in the order `pa`, `pn`, `cu`, `am`, `tn` (the currency
field is inserted before the optional amount and note fields) — with `am`
rendered with exactly two decimal digits and `tn` present only when a note
was supplied. -/
theorem qr_url_format (upi_id name : String) (a : ℚ) (note : String)
    (ha : 0 < a) (hn : ¬ note = "") :
    build_upi_url upi_id name (some a) (some note) =
      "upi://pay?" ++ ("pa=" ++ pyQuote upi_id) ++ "&" ++
        ("pn=" ++ pyQuote (pyStrip name)) ++ "&" ++
        ("cu=" ++ pyQuote "INR") ++ "&" ++
        ("am=" ++ pyQuote (fmtTwoDec a)) ++ "&" ++
        ("tn=" ++ pyQuote (pyTake (pyStrip note) 100)) ∧
    (∃ ip : String,
      fmtTwoDec a =
        ip ++ "." ++ twoDigitStr (roundHalfEven (100 * a) % 100).toNat ∧
      (twoDigitStr (roundHalfEven (100 * a) % 100).toNat).length = 2 ∧
      ∀ ch ∈ (twoDigitStr (roundHalfEven (100 * a) % 100).toNat).data,
        ch.isDigit = true) := by
  constructor
  · simp only [build_upi_url, build_upi_params]
    rw [if_pos (show a ≠ 0 ∧ 0 < a from ⟨ha.ne', ha⟩)]
    rw [if_pos hn]
    simp only [List.map_cons, List.map_nil, List.cons_append, List.nil_append]
    rw [intercalate_five]
    rw [show ("pa" ++ "=" : String) = "pa=" by decide,
      show ("pn" ++ "=" : String) = "pn=" by decide,
      show ("cu" ++ "=" : String) = "cu=" by decide,
      show ("am" ++ "=" : String) = "am=" by decide,
      show ("tn" ++ "=" : String) = "tn=" by decide]
    simp [String.append_assoc]
  · refine ⟨toString (roundHalfEven (100 * a) / 100), rfl, ?_, ?_⟩
    · rfl
    · have hlt : roundHalfEven (100 * a) % 100 < 100 :=
        Int.emod_lt_of_pos _ (by norm_num)
      have hge : 0 ≤ roundHalfEven (100 * a) % 100 :=
        Int.emod_nonneg _ (by norm_num)
      have hn100 : (roundHalfEven (100 * a) % 100).toNat < 100 := by omega
      intro ch hch
      have hd : (twoDigitStr (roundHalfEven (100 * a) % 100).toNat).data =
          [Nat.digitChar ((roundHalfEven (100 * a) % 100).toNat / 10),
           Nat.digitChar ((roundHalfEven (100 * a) % 100).toNat % 10)] := rfl
      rw [hd] at hch
      simp only [List.mem_cons, List.not_mem_nil, or_false] at hch
      rcases hch with rfl | rfl
      · exact digitChar_isDigit _ (by omega)
      · exact digitChar_isDigit _ (by omega)

/-- Witness for C4 as amended at id `abc@okaxis`, name `Al`, amount 100 and
note `note`; the amount 100 renders as `am=100.00`. -/
theorem qr_url_format_witness :
    (build_upi_url "abc@okaxis" "Al" (some 100) (some "note") =
      "upi://pay?" ++ ("pa=" ++ pyQuote "abc@okaxis") ++ "&" ++
        ("pn=" ++ pyQuote (pyStrip "Al")) ++ "&" ++
        ("cu=" ++ pyQuote "INR") ++ "&" ++
        ("am=" ++ pyQuote (fmtTwoDec 100)) ++ "&" ++
        ("tn=" ++ pyQuote (pyTake (pyStrip "note") 100)) ∧
    (∃ ip : String,
      fmtTwoDec 100 =
        ip ++ "." ++ twoDigitStr (roundHalfEven (100 * 100) % 100).toNat ∧
      (twoDigitStr (roundHalfEven (100 * 100) % 100).toNat).length = 2 ∧
      ∀ ch ∈ (twoDigitStr (roundHalfEven (100 * 100) % 100).toNat).data,
        ch.isDigit = true)) ∧
    fmtTwoDec 100 = "100.00" :=
  ⟨qr_url_format "abc@okaxis" "Al" 100 "note" (by norm_num) (by decide),
   fmtTwoDec_hundred⟩

end QRBot
